import Mathlib

/-!
Shallow embedding of the client-side financial computation layer of the
pico_ui dashboard: numeric helpers, max/min-available calculators, the
balance-refresh state update, rebalance/auction preview decomposition, and
the submission guards.  All big-integer arithmetic of the source (JS
`bigint`) is embedded as `Int`; JS `bigint` division truncates toward
zero, so source divisions are embedded with `Int.tdiv`.  Values that may
be `null`/`undefined` in the source are embedded as `Option`.
-/

namespace PicoUI

/-- Modelled from the spec: `minBigInt(a, b)` (exported by the repo's
`@/utils` module, whose file is not part of the source snapshot; the spec
defines it as the minimum in the total order over arbitrary-precision
integers). -/
def minBigInt (a b : Int) : Int := min a b

/-- Modelled from the spec: `maxBigInt(a, b)` (exported by the repo's
`@/utils` module, whose file is not part of the source snapshot; the spec
defines it as the maximum in the total order over arbitrary-precision
integers). -/
def maxBigInt (a b : Int) : Int := max a b

/-- Modelled from the spec: `clampToPositive(x)` (exported by the repo's
`@/utils` module, whose file is not part of the source snapshot; the spec
defines it as `x` if `x > 0`, else `0`). -/
def clampToPositive (x : Int) : Int := if 0 < x then x else 0

/-- `reduceByPrecisionBuffer` from `useFlashLoanPreview.ts`:
`(value * 99_999_999n) / 100_000_000n` with JS `bigint` (truncating)
division. -/
def reduceByPrecisionBuffer (value : Int) : Int :=
  Int.tdiv (value * 99999999) 100000000

/-- `GAS_RESERVE_WEI = parseEther("0.002")` from the constants module:
0.002 ETH in wei. -/
def GAS_RESERVE_WEI : Int := 2000000000000000

/-- Inputs of `calculateMaxValues` (VaultContext), already converted to raw
wei amounts exactly as the source does with `parseUnits`/`parseEther` at
the top of the function.  The vault's `previewDeposit` and
`previewDepositCollateral` read calls are embedded as function-valued
inputs. -/
structure MaxValuesInput where
  isBorrowTokenWeth : Bool
  isCollateralTokenWeth : Bool
  ethBalanceWei : Int
  borrowTokenBalanceWei : Int
  sharesBalanceWei : Int
  collateralTokenBalanceWei : Int
  vaultMaxDepositWei : Int
  vaultMaxRedeemWei : Int
  vaultMaxMintWei : Int
  vaultMaxWithdrawWei : Int
  vaultMaxDepositCollateralWei : Int
  vaultMaxRedeemCollateralWei : Int
  vaultMaxMintCollateralWei : Int
  vaultMaxWithdrawCollateralWei : Int
  previewDeposit : Int → Int
  previewDepositCollateral : Int → Int

/-- The eight user-facing maxima set by `calculateMaxValues` (raw wei,
before the final `formatUnits` presentation step). -/
structure MaxValuesOutput where
  maxDeposit : Int
  maxRedeem : Int
  maxMint : Int
  maxWithdraw : Int
  maxDepositCollateral : Int
  maxRedeemCollateral : Int
  maxMintCollateral : Int
  maxWithdrawCollateral : Int
deriving DecidableEq, Repr

/-- `calculateMaxValues` from the VaultContext provider: computes the
effective per-action maxima from balances, vault limits, the WETH flags
and the gas reserve.  Mirrors the source line by line (the source's
ternary `a < b ? a : b` is `minBigInt`). -/
def calculateMaxValues (inp : MaxValuesInput) : MaxValuesOutput :=
  let availableEthForBorrowWei :=
    if inp.isBorrowTokenWeth then clampToPositive (inp.ethBalanceWei - GAS_RESERVE_WEI) else 0
  let availableEthForCollateralWei :=
    if inp.isCollateralTokenWeth then clampToPositive (inp.ethBalanceWei - GAS_RESERVE_WEI) else 0
  let depositBudgetWei :=
    if inp.isBorrowTokenWeth then inp.borrowTokenBalanceWei + availableEthForBorrowWei
    else inp.borrowTokenBalanceWei
  let maxAvailableDepositWei := minBigInt depositBudgetWei inp.vaultMaxDepositWei
  let maxAvailableRedeemWei := minBigInt inp.sharesBalanceWei inp.vaultMaxRedeemWei
  let rawSharesForBorrowToken := inp.previewDeposit inp.borrowTokenBalanceWei
  let rawSharesForEth :=
    if inp.isBorrowTokenWeth then inp.previewDeposit availableEthForBorrowWei else 0
  let mintBudgetSharesWei := rawSharesForBorrowToken + rawSharesForEth
  let maxAvailableMintWei := minBigInt mintBudgetSharesWei inp.vaultMaxMintWei
  let depositCollateralBudgetWei :=
    if inp.isCollateralTokenWeth then inp.collateralTokenBalanceWei + availableEthForCollateralWei
    else inp.collateralTokenBalanceWei
  let maxAvailableDepositCollateralWei :=
    minBigInt depositCollateralBudgetWei inp.vaultMaxDepositCollateralWei
  let maxAvailableRedeemCollateralWei :=
    minBigInt inp.sharesBalanceWei inp.vaultMaxRedeemCollateralWei
  let rawSharesForCollateral := inp.previewDepositCollateral inp.collateralTokenBalanceWei
  let rawSharesForEthCollateral :=
    if inp.isCollateralTokenWeth then inp.previewDepositCollateral availableEthForCollateralWei
    else 0
  let mintCollateralBudgetSharesWei := rawSharesForCollateral + rawSharesForEthCollateral
  let maxAvailableMintCollateralWei :=
    minBigInt mintCollateralBudgetSharesWei inp.vaultMaxMintCollateralWei
  { maxDeposit := maxAvailableDepositWei
    maxRedeem := maxAvailableRedeemWei
    maxMint := maxAvailableMintWei
    maxWithdraw := inp.vaultMaxWithdrawWei
    maxDepositCollateral := maxAvailableDepositCollateralWei
    maxRedeemCollateral := maxAvailableRedeemCollateralWei
    maxMintCollateral := maxAvailableMintCollateralWei
    maxWithdrawCollateral := inp.vaultMaxWithdrawCollateralWei }

/-- The balance tuple maintained by the VaultContext provider
(`ethBalance`, `sharesBalance`, `borrowTokenBalance`,
`collateralTokenBalance`), as raw integer amounts. -/
structure BalanceState where
  ethBalance : Int
  sharesBalance : Int
  borrowTokenBalance : Int
  collateralTokenBalance : Int
deriving DecidableEq, Repr

/-- `loadBalances` from the VaultContext provider, as a state update on
`BalanceState`.  The source first awaits `getBalance` and immediately
calls `setEthBalance`, then awaits a `Promise.all` of the three token
`balanceOf` reads and sets those three; any rejection jumps to the catch
block, which performs no state writes.  `ethFetch` is the outcome of the
native-balance read and `batchFetch` the outcome of the joined
three-read batch (`none` = rejected). -/
def loadBalances (prev : BalanceState) (ethFetch : Option Int)
    (batchFetch : Option (Int × Int × Int)) : BalanceState :=
  match ethFetch with
  | none => prev
  | some e =>
    match batchFetch with
    | none => { prev with ethBalance := e }
    | some (sh, bo, co) =>
      { ethBalance := e, sharesBalance := sh, borrowTokenBalance := bo,
        collateralTokenBalance := co }

/-- The `TokenType` union of the low-level-rebalance component, the TS
literal union of shares, borrow and collateral; it doubles as the
`rebalanceType` selector. -/
inductive TokenType where
  | shares
  | borrow
  | collateral
deriving DecidableEq, Repr

/-- One entry of the rebalance preview's receive/provide lists:
`{ amount: bigint; tokenType: TokenType }`. -/
structure Leg where
  amount : Int
  tokenType : TokenType
deriving DecidableEq, Repr

/-- The `previewData` record of the low-level-rebalance component; each
delta is optional (`undefined` for the fields the preview of the current
mode does not return). -/
structure PreviewData where
  deltaCollateral : Option Int := none
  deltaBorrow : Option Int := none
  deltaShares : Option Int := none
deriving DecidableEq, Repr

/-- The `addToList` closure inside `getReceiveAndProvide`: appends the
absolute value of a non-zero delta to the provide list when
`isPositive` (its sign, inverted when `invertSign`) and to the receive
list otherwise; `undefined` or zero deltas append nothing.  The
accumulator is the `(receive, provide)` pair of lists. -/
def addToList (value : Option Int) (tokenType : TokenType) (invertSign : Bool)
    (acc : List Leg × List Leg) : List Leg × List Leg :=
  match value with
  | none => acc
  | some v =>
    if v = 0 then acc
    else
      let isPositive : Bool := if invertSign then decide (v < 0) else decide (0 < v)
      let absValue := if v < 0 then -v else v
      if isPositive then (acc.1, acc.2 ++ [⟨absValue, tokenType⟩])
      else (acc.1 ++ [⟨absValue, tokenType⟩], acc.2)

/-- `getReceiveAndProvide` of the low-level-rebalance component: builds
the `(receive, provide)` leg lists from the entered `amount` and the
preview deltas, with the per-mode `addToList` calls of the source
(collateral delta uninverted and borrow delta inverted in shares mode,
and so on).  Returns `([], [])` when there is no preview data, exactly
as the early return in the source. -/
def getReceiveAndProvide (rebalanceType : TokenType) (amount : Option Int)
    (previewData : Option PreviewData) : List Leg × List Leg :=
  match previewData with
  | none => ([], [])
  | some pd =>
    let acc0 : List Leg × List Leg := ([], [])
    let acc1 :=
      match amount with
      | none => acc0
      | some a =>
        if a = 0 then acc0
        else
          let isInputPositive : Bool :=
            match rebalanceType with
            | .shares => decide (0 < a)
            | .borrow => decide (a < 0)
            | .collateral => decide (0 < a)
          let absAmount := if a < 0 then -a else a
          if isInputPositive then
            match rebalanceType with
            | .shares => (acc0.1 ++ [⟨absAmount, rebalanceType⟩], acc0.2)
            | _ => (acc0.1, acc0.2 ++ [⟨absAmount, rebalanceType⟩])
          else
            match rebalanceType with
            | .shares => (acc0.1, acc0.2 ++ [⟨absAmount, rebalanceType⟩])
            | _ => (acc0.1 ++ [⟨absAmount, rebalanceType⟩], acc0.2)
    match rebalanceType with
    | .shares => addToList pd.deltaBorrow .borrow true (addToList pd.deltaCollateral .collateral false acc1)
    | .borrow => addToList pd.deltaShares .shares true (addToList pd.deltaCollateral .collateral false acc1)
    | .collateral => addToList pd.deltaShares .shares true (addToList pd.deltaBorrow .borrow true acc1)

/-- The borrow/collateral branch of `loadMaxValue` in the
low-level-rebalance component: `vaultMax` is the signed
`maxLowLevelRebalanceBorrow`/`Collateral` read, `userBalance` the user's
parsed token balance, and `isUserProvideAction` whether the selected
`actionType` is `'provide'`.  Mismatched direction yields `0`; otherwise
the source's ternaries clamp `vaultMax` by the (negated) balance. -/
def rebalanceMaxValue (vaultMax userBalance : Int) (isUserProvideAction : Bool) : Int :=
  let isVaultProvideDirection : Bool := decide (vaultMax < 0)
  if isVaultProvideDirection ≠ isUserProvideAction then 0
  else if vaultMax < 0 then
    if vaultMax > -userBalance then vaultMax else -userBalance
  else
    if vaultMax < userBalance then vaultMax else userBalance

/-- Outcome of the submission path of `handleSubmit` in
`ActionHandler.tsx` restricted to the max-guard region: either an early
abort with the refetch-error message, an early abort with the
amount-higher-than-available message, or a call of `executeVaultMethod`
with the final amount. -/
inductive SubmitOutcome where
  | refetchError
  | amountTooHigh
  | executed (amount : Int)
deriving DecidableEq, Repr

/-- Whether a `SubmitOutcome` sends a transaction (only `executed`
reaches `executeVaultMethod`). -/
def sendsTransaction : SubmitOutcome → Bool
  | .executed _ => true
  | _ => false

/-- The stale-max guard of `handleSubmit` in `ActionHandler.tsx`: when
`isMaxSelected` and the action is redeem or withdraw, the freshly
refetched max (`maxBeforeTx`, `none` when `refetchMaxBeforeTx` returned
`undefined`) is consulted; the JS falsy test `!maxBeforeTx` also
triggers on a zero bigint, hence the explicit zero case.  On the happy
path the refetched max itself is submitted; outside the guard the parsed
amount is submitted unchanged. -/
def handleSubmitMaxGuard (isMaxSelected isRedeemOrWithdraw : Bool)
    (maxBeforeTx : Option Int) (parsedAmount : Int) : SubmitOutcome :=
  if isMaxSelected && isRedeemOrWithdraw then
    match maxBeforeTx with
    | none => .refetchError
    | some m =>
      if m = 0 then .refetchError
      else if m < parsedAmount then .amountTooHigh
      else .executed m
  else .executed parsedAmount

/-- What the catch block of `handleSubmit` in `ActionHandler.tsx`
reports: the message passed to `setError` and whether the underlying
error is logged with `console.error`. -/
structure FailureReport where
  errorMessage : Option String
  logged : Bool
deriving DecidableEq, Repr

/-- The catch block of `handleSubmit` in `ActionHandler.tsx`: when
`isUserRejected(err)` the error message is set to the cancellation text
without logging; otherwise a generic failure message for the action is
set and the error is logged. -/
def classifyCatch (isUserRejectedErr : Bool) (actionType : String) : FailureReport :=
  if isUserRejectedErr then
    { errorMessage := some "Transaction canceled by user.", logged := false }
  else
    { errorMessage := some ("Failed to " ++ actionType ++ "."), logged := true }

/-- `loadMinAvailable` from `FlashLoanHelperHandler.tsx`, returning the
pair (raw min mint, raw min redeem) in shares wei.  `deltaShares` is the
second component of `previewLowLevelRebalanceBorrow(0)`;
`variableDebtTokenShares` is the vault's variable-debt-token balance
converted to shares by `convertToShares`.  JS `bigint` division
truncates toward zero (`Int.tdiv`). -/
def loadMinAvailable (deltaShares variableDebtTokenShares : Int) : Int × Int :=
  if 0 < deltaShares then
    let amountWithPrecision := Int.tdiv (variableDebtTokenShares * 2) 10000000
    let rawMinMint :=
      maxBigInt (Int.tdiv (deltaShares * 101) 100) (deltaShares + 5 * amountWithPrecision)
    (rawMinMint, 0)
  else if deltaShares < 0 then
    let absDelta := if deltaShares < 0 then -deltaShares else deltaShares
    let rawMinRedeem := Int.tdiv (absDelta * 10001) 10000
    (0, rawMinRedeem)
  else (0, 0)

/-- The auction direction union of `AuctionHandler.tsx`. -/
inductive AuctionType where
  | provide_collateral
  | provide_borrow
deriving DecidableEq, Repr

/-- `auctionType` from `AuctionHandler.tsx`: the JS expression
`futureBorrowAssets && futureBorrowAssets > 0n` is truthy only when the
value is present, non-zero and positive. -/
def auctionType (futureBorrowAssets : Option Int) : AuctionType :=
  match futureBorrowAssets with
  | none => .provide_borrow
  | some v => if 0 < v then .provide_collateral else .provide_borrow

/-- `loadMaxValue` from `AuctionHandler.tsx`: bails out (leaving the max
unset) when either future-assets value is missing or zero (JS falsy
guard on bigints); otherwise takes the provided-side user balance and
the vault's clamped need on that side and returns their minimum via the
source's ternary. -/
def auctionLoadMaxValue (futureBorrowAssets futureCollateralAssets : Option Int)
    (borrowTokenBalanceWei collateralTokenBalanceWei : Int) : Option Int :=
  match futureBorrowAssets, futureCollateralAssets with
  | some fba, some fca =>
    if fba = 0 ∨ fca = 0 then none
    else
      let at' := auctionType (some fba)
      let userBalance :=
        match at' with
        | .provide_borrow => borrowTokenBalanceWei
        | .provide_collateral => collateralTokenBalanceWei
      let vaultNeeds :=
        match at' with
        | .provide_borrow => if fba < 0 then -fba else 0
        | .provide_collateral => if 0 < fca then fca else 0
      some (if userBalance < vaultNeeds then userBalance else vaultNeeds)
  | _, _ => none

/-- The `disabled` condition of the submit button in
`AuctionHandler.tsx`: disabled while loading or approving, when no
amount is entered, or when the entered amount exceeds the loaded max. -/
def auctionSubmitDisabled (loading isApproving : Bool) (amount maxValue : Option Int) : Bool :=
  loading || isApproving ||
    (match amount with
     | none => true
     | some a =>
       match maxValue with
       | none => false
       | some m => decide (m < a))

/-- Claim C2: for a low-level rebalance on the borrow or collateral side,
a mismatch between the sign of the vault's signed max and the selected
provide/receive action yields an available max of exactly zero, and when
the vault's max is negative and the user selected provide, the available
max has magnitude `min(userTokenBalance, |vaultMax|)`. -/
theorem rebalanceMaxValue_direction (vaultMax userBalance : Int) (isProvide : Bool)
    (hbal : 0 ≤ userBalance) :
    (decide (vaultMax < 0) ≠ isProvide →
      rebalanceMaxValue vaultMax userBalance isProvide = 0) ∧
    (vaultMax < 0 →
      |rebalanceMaxValue vaultMax userBalance true| = min userBalance |vaultMax|) := by
  constructor
  · intro hne
    unfold rebalanceMaxValue
    simp [hne]
  · intro hneg
    have hd : decide (vaultMax < 0) = true := by simpa using hneg
    unfold rebalanceMaxValue
    simp only [hd, ne_eq, not_true_eq_false, if_false, if_neg]
    rw [if_pos hneg, abs_of_neg hneg]
    split_ifs with h2
    · rw [abs_of_neg hneg]
      omega
    · rw [abs_of_nonpos (by omega : -userBalance ≤ 0)]
      omega

/-- Claim C2 witness: with `vaultMax = -5`, `userBalance = 3`, a receive
selection yields zero, and the provide max has magnitude
`min(3, 5) = 3`. -/
theorem rebalanceMaxValue_direction_witness :
    rebalanceMaxValue (-5) 3 false = 0 ∧
    |rebalanceMaxValue (-5) 3 true| = min 3 |(-5 : Int)| :=
  ⟨(rebalanceMaxValue_direction (-5) 3 false (by norm_num)).1 (by decide),
   (rebalanceMaxValue_direction (-5) 3 false (by norm_num)).2 (by norm_num)⟩

/-- Claim C3: the maximum available deposit equals
`min(vaultMaxDeposit, borrowTokenBalance + W)` with `W` the native
balance minus the 0.002-ETH gas reserve clamped to zero when the borrow
token is wrapped native, else `W = 0`; and on the 18-decimal scenario
(balance 2.0, eth 1.0, vault max 2.5) the result is 2.5. -/
theorem maxDeposit_formula :
    (∀ inp : MaxValuesInput,
      (calculateMaxValues inp).maxDeposit =
        min inp.vaultMaxDepositWei
          (inp.borrowTokenBalanceWei +
            (if inp.isBorrowTokenWeth then max (inp.ethBalanceWei - GAS_RESERVE_WEI) 0
             else 0))) ∧
    (calculateMaxValues
      { isBorrowTokenWeth := true, isCollateralTokenWeth := false,
        ethBalanceWei := 1000000000000000000,
        borrowTokenBalanceWei := 2000000000000000000,
        sharesBalanceWei := 0, collateralTokenBalanceWei := 0,
        vaultMaxDepositWei := 2500000000000000000,
        vaultMaxRedeemWei := 0, vaultMaxMintWei := 0, vaultMaxWithdrawWei := 0,
        vaultMaxDepositCollateralWei := 0, vaultMaxRedeemCollateralWei := 0,
        vaultMaxMintCollateralWei := 0, vaultMaxWithdrawCollateralWei := 0,
        previewDeposit := fun _ => 0,
        previewDepositCollateral := fun _ => 0 }).maxDeposit
      = 2500000000000000000 := by
  constructor
  · intro inp
    cases hW : inp.isBorrowTokenWeth <;>
      simp only [calculateMaxValues, minBigInt, clampToPositive, hW, if_true, if_false,
        Bool.false_eq_true] <;>
      first
      | (split_ifs <;> omega)
      | omega
  · decide

/-- Claim C4 counterexample: with `vaultMaxWithdraw = 10` and a borrow
token balance of `3`, the computed withdraw max is `10`, not
`min(10, 3) = 3`: the withdraw maxima take no minimum with any user
balance. -/
theorem maxWithdraw_ignores_balance :
    (calculateMaxValues
      { isBorrowTokenWeth := false, isCollateralTokenWeth := false,
        ethBalanceWei := 0, borrowTokenBalanceWei := 3,
        sharesBalanceWei := 0, collateralTokenBalanceWei := 0,
        vaultMaxDepositWei := 0, vaultMaxRedeemWei := 0, vaultMaxMintWei := 0,
        vaultMaxWithdrawWei := 10,
        vaultMaxDepositCollateralWei := 0, vaultMaxRedeemCollateralWei := 0,
        vaultMaxMintCollateralWei := 0, vaultMaxWithdrawCollateralWei := 0,
        previewDeposit := fun _ => 0,
        previewDepositCollateral := fun _ => 0 }).maxWithdraw = 10 ∧
    ¬((10 : Int) = min 10 3) := by
  decide

/-- Claim C4 (amended): both redeem maxima equal
`min(vault limit, sharesBalance)` with no gas-reserve adjustment, while
both withdraw maxima equal the vault's max-withdraw limit alone, with no
user-balance minimum and no gas-reserve adjustment. -/
theorem withdrawRedeemMax_formula (inp : MaxValuesInput) :
    (calculateMaxValues inp).maxRedeem = min inp.vaultMaxRedeemWei inp.sharesBalanceWei ∧
    (calculateMaxValues inp).maxRedeemCollateral =
      min inp.vaultMaxRedeemCollateralWei inp.sharesBalanceWei ∧
    (calculateMaxValues inp).maxWithdraw = inp.vaultMaxWithdrawWei ∧
    (calculateMaxValues inp).maxWithdrawCollateral = inp.vaultMaxWithdrawCollateralWei := by
  refine ⟨?_, ?_, rfl, rfl⟩ <;>
    simp only [calculateMaxValues, minBigInt] <;> omega

/-- Claim C5 counterexample: starting from the tuple `(0, 0, 0, 0)`, a
refresh whose native-balance read returns `5` but whose joined
three-read batch fails leaves the state `(5, 0, 0, 0)`: the ethBalance
field is updated while the other three keep their previous values, so
the refresh is not atomic over the whole tuple. -/
theorem loadBalances_partial_update :
    loadBalances ⟨0, 0, 0, 0⟩ (some 5) none = ⟨5, 0, 0, 0⟩ ∧
    loadBalances ⟨0, 0, 0, 0⟩ (some 5) none ≠ ⟨0, 0, 0, 0⟩ := by
  decide

/-- Claim C5 (amended): the three token balances are replaced atomically
(all three on batch success, none on batch failure), but `ethBalance` is
written separately before the batch: a refresh whose native read fails
changes nothing, one whose batch fails updates only `ethBalance`, and a
fully successful one replaces the whole tuple. -/
theorem loadBalances_update_shape (prev : BalanceState) (e sh bo co : Int)
    (b : Option (Int × Int × Int)) :
    loadBalances prev none b = prev ∧
    loadBalances prev (some e) none = { prev with ethBalance := e } ∧
    loadBalances prev (some e) (some (sh, bo, co)) =
      { ethBalance := e, sharesBalance := sh, borrowTokenBalance := bo,
        collateralTokenBalance := co } :=
  ⟨rfl, rfl, rfl⟩

/-- Claim C6 counterexample: with max selected for a redeem/withdraw, a
freshly refetched max of `0` against a committed amount of `1` is
smaller than the amount, yet the submission aborts with the
refetch-error message (the JS falsy test on the bigint), not with the
amount-higher-than-available error; no transaction is sent. -/
theorem maxGuard_zero_max_counterexample :
    (0 : Int) < 1 ∧
    handleSubmitMaxGuard true true (some 0) 1 = .refetchError ∧
    handleSubmitMaxGuard true true (some 0) 1 ≠ .amountTooHigh ∧
    sendsTransaction (handleSubmitMaxGuard true true (some 0) 1) = false := by
  decide

/-- Claim C6 (amended): when the user selected max for a redeem or
withdraw, the refetched max is consulted before submitting; a positive
refetched max smaller than the committed amount aborts with the
amount-higher-than-available error, while a failed refetch or a zero
refetched max aborts with the refetch-error message; in every abort case
no transaction is sent. -/
theorem maxGuard_aborts (m a : Int) :
    (0 < m → m < a →
      handleSubmitMaxGuard true true (some m) a = .amountTooHigh ∧
      sendsTransaction (handleSubmitMaxGuard true true (some m) a) = false) ∧
    (handleSubmitMaxGuard true true (some 0) a = .refetchError ∧
      sendsTransaction (handleSubmitMaxGuard true true (some 0) a) = false) ∧
    (handleSubmitMaxGuard true true none a = .refetchError ∧
      sendsTransaction (handleSubmitMaxGuard true true none a) = false) := by
  refine ⟨fun hm hma => ?_, ⟨?_, ?_⟩, ⟨rfl, rfl⟩⟩
  · have h0 : ¬m = 0 := by omega
    simp [handleSubmitMaxGuard, sendsTransaction, h0, hma]
  · simp [handleSubmitMaxGuard]
  · simp [handleSubmitMaxGuard, sendsTransaction]

/-- Claim C6 witness: a refetched max of `1` against a committed amount
of `2` aborts with the amount-higher-than-available error and sends no
transaction. -/
theorem maxGuard_aborts_witness :
    handleSubmitMaxGuard true true (some 1) 2 = .amountTooHigh ∧
    sendsTransaction (handleSubmitMaxGuard true true (some 1) 2) = false :=
  (maxGuard_aborts 1 2).1 (by norm_num) (by norm_num)

/-- Claim C7 counterexample: a user-rejected transaction attempt does
set an error message (the cancellation text), so the outcome is not a
silent, banner-free reset. -/
theorem userRejected_sets_error :
    (classifyCatch true "deposit").errorMessage = some "Transaction canceled by user." ∧
    (classifyCatch true "deposit").errorMessage ≠ none := by
  decide

/-- Claim C7 (amended): user-rejected attempts are distinguished from
other failures: they set the fixed cancellation message without logging
the underlying error, while non-user-rejected failures set a
per-action failure message and log the error. -/
theorem classifyCatch_spec (actionType : String) :
    ((classifyCatch true actionType).errorMessage = some "Transaction canceled by user." ∧
      (classifyCatch true actionType).logged = false) ∧
    ((classifyCatch false actionType).errorMessage =
        some ("Failed to " ++ actionType ++ ".") ∧
      (classifyCatch false actionType).logged = true) :=
  ⟨⟨rfl, rfl⟩, ⟨rfl, rfl⟩⟩

/-- Claim C8 counterexample: with a zero-amount-preview `deltaShares` of
`-10000` and a debt correction of `0`, the redeem-side minimum is
`10001` (the `× 10001/10000` rule), not the claimed
`max(10000 × 101/100, 10000 + 5 × 0) = 10100`: the
`max(d × 1.01, d + 5c)` formula is applied only on the mint side. -/
theorem minAvailable_redeem_side_not_formula :
    loadMinAvailable (-10000) 0 = (0, 10001) ∧
    (loadMinAvailable (-10000) 0).2 ≠
      maxBigInt (Int.tdiv (10000 * 101) 100) (10000 + 5 * Int.tdiv (0 * 2) 10000000) := by
  decide

/-- Claim C8 (amended): the imbalance `d` is the `deltaShares` of the
zero-amount rebalance preview; when `d > 0` the minimum mint is
`max(d × 101/100, d + 5c)` with `c` the variable-debt balance in shares
times `2 / 10,000,000` and the minimum redeem is zero; when `d < 0` the
minimum redeem is `|d| × 10001/10000` and the minimum mint is zero; when
`d = 0` both minima are zero. -/
theorem loadMinAvailable_spec (d v : Int) :
    (0 < d → loadMinAvailable d v =
      (maxBigInt (Int.tdiv (d * 101) 100) (d + 5 * Int.tdiv (v * 2) 10000000), 0)) ∧
    (d < 0 → loadMinAvailable d v = (0, Int.tdiv (-d * 10001) 10000)) ∧
    (d = 0 → loadMinAvailable d v = (0, 0)) := by
  refine ⟨fun h => ?_, fun h => ?_, fun h => ?_⟩
  · simp [loadMinAvailable, h]
  · simp [loadMinAvailable, h, show ¬(0 < d) by omega]
  · subst h
    simp [loadMinAvailable]

/-- Claim C8 witness: at `d = 10000`, `c`-input `0`, the minimum mint is
`max(10100, 10000) = 10100` and the minimum redeem is zero. -/
theorem loadMinAvailable_spec_witness :
    loadMinAvailable 10000 0 =
      (maxBigInt (Int.tdiv (10000 * 101) 100) (10000 + 5 * Int.tdiv (0 * 2) 10000000), 0) :=
  (loadMinAvailable_spec 10000 0).1 (by norm_num)

/-- Claim C9 counterexample: at `x = 1`, `reduceByPrecisionBuffer` gives
`0`, and the absolute error `1` exceeds `1 / 10,000,000 = 0` (truncated
integer division), so the claimed error bound fails. -/
theorem reduceByPrecisionBuffer_claim_fails_at_one :
    (0 : Int) ≤ 1 ∧ reduceByPrecisionBuffer 1 = 0 ∧
    ¬((1 : Int) - reduceByPrecisionBuffer 1 ≤ Int.tdiv 1 10000000) := by
  decide

/-- Claim C9 (amended): for every non-negative integer `x`,
`0 ≤ reduceByPrecisionBuffer x ≤ x` and the absolute error is at most
`x / 10,000,000 + 1` (truncated integer division). -/
theorem reduceByPrecisionBuffer_bounds (x : Int) (hx : 0 ≤ x) :
    0 ≤ reduceByPrecisionBuffer x ∧ reduceByPrecisionBuffer x ≤ x ∧
    x - reduceByPrecisionBuffer x ≤ Int.tdiv x 10000000 + 1 := by
  unfold reduceByPrecisionBuffer
  rw [Int.tdiv_eq_ediv (by exact mul_nonneg hx (by norm_num)) (by norm_num),
    Int.tdiv_eq_ediv hx (by norm_num)]
  omega

/-- Claim C9 witness: at `x = 100000000` the bounds hold. -/
theorem reduceByPrecisionBuffer_bounds_witness :
    0 ≤ reduceByPrecisionBuffer 100000000 ∧
    reduceByPrecisionBuffer 100000000 ≤ 100000000 ∧
    (100000000 : Int) - reduceByPrecisionBuffer 100000000 ≤
      Int.tdiv 100000000 10000000 + 1 :=
  reduceByPrecisionBuffer_bounds 100000000 (by norm_num)

/-- Claim C10: the provided auction side follows the sign of
`futureBorrowAssets` (positive means provide collateral, otherwise
provide borrow); a computed maximum equals
`min(balance of the provided token, clamp(vault's needed amount, 0))`;
and submission is disabled whenever the entered amount exceeds the
computed maximum. -/
theorem auction_direction_max_disable (fba fca bb cb m a : Int) (l ia : Bool) :
    (auctionType (some fba) =
      if 0 < fba then AuctionType.provide_collateral else AuctionType.provide_borrow) ∧
    (auctionLoadMaxValue (some fba) (some fca) bb cb = some m →
      m = min (if 0 < fba then cb else bb) (max (if 0 < fba then fca else -fba) 0)) ∧
    (m < a → auctionSubmitDisabled l ia (some a) (some m) = true) := by
  refine ⟨rfl, fun h => ?_, fun h => ?_⟩
  · simp only [auctionLoadMaxValue] at h
    by_cases hf : 0 < fba <;>
      [rw [show auctionType (some fba) = AuctionType.provide_collateral from by
          simp [auctionType, hf]] at h;
       rw [show auctionType (some fba) = AuctionType.provide_borrow from by
          simp [auctionType, hf]] at h] <;>
      split_ifs at h <;>
      simp_all <;>
      omega
  · simp [auctionSubmitDisabled, h]

/-- Claim C10 witness: with `futureBorrowAssets = -5`,
`futureCollateralAssets = 7`, a borrow balance of `3` and a collateral
balance of `100`, the loaded max is `3 = min(3, max(5, 0))`, and an
entered amount of `4 > 3` disables submission. -/
theorem auction_direction_max_disable_witness :
    ((3 : Int) = min (if (0 : Int) < -5 then 100 else 3)
      (max (if (0 : Int) < -5 then 7 else -(-5 : Int)) 0)) ∧
    auctionSubmitDisabled false false (some 4) (some 3) = true :=
  ⟨(auction_direction_max_disable (-5) 7 3 100 3 4 false false).2.1 (by decide),
   (auction_direction_max_disable (-5) 7 3 100 3 4 false false).2.2 (by norm_num)⟩

/-- Helper: `addToList` without sign inversion appends the negative
delta's absolute value to the receive list and the positive delta to
the provide list. -/
lemma addToList_noinvert (v : Option Int) (t : TokenType) (acc : List Leg × List Leg) :
    addToList v t false acc =
      (acc.1 ++ (match v with
        | none => []
        | some x => if x < 0 then [⟨-x, t⟩] else []),
       acc.2 ++ (match v with
        | none => []
        | some x => if 0 < x then [⟨x, t⟩] else [])) := by
  rcases v with _ | x
  · simp [addToList]
  · rcases lt_trichotomy x 0 with h | h | h
    · simp [addToList, h, show ¬x = 0 by omega, show ¬0 < x by omega]
    · subst h
      simp [addToList]
    · simp [addToList, h, show ¬x = 0 by omega, show ¬x < 0 by omega]

/-- Helper: `addToList` with sign inversion appends the positive delta
to the receive list and the negative delta's absolute value to the
provide list. -/
lemma addToList_invert (v : Option Int) (t : TokenType) (acc : List Leg × List Leg) :
    addToList v t true acc =
      (acc.1 ++ (match v with
        | none => []
        | some x => if 0 < x then [⟨x, t⟩] else []),
       acc.2 ++ (match v with
        | none => []
        | some x => if x < 0 then [⟨-x, t⟩] else [])) := by
  rcases v with _ | x
  · simp [addToList]
  · rcases lt_trichotomy x 0 with h | h | h
    · simp [addToList, h, show ¬x = 0 by omega, show ¬0 < x by omega]
    · subst h
      simp [addToList]
    · simp [addToList, h, show ¬x = 0 by omega, show ¬x < 0 by omega]

/-- Claim C1: in shares-rebalance mode the preview decomposition follows
the per-leg sign rule: a positive collateral delta yields a provide leg
and a negative one a receive leg, the borrow delta's mapping is
inverted (positive yields a receive leg, negative a provide leg), and a
zero or absent delta yields no leg; the input amount contributes only
the shares leg shown alongside. -/
theorem rebalanceShares_sign_rule (a : Option Int) (pd : PreviewData) :
    getReceiveAndProvide .shares a (some pd) =
      ((match a with
        | none => []
        | some x => if 0 < x then [⟨x, TokenType.shares⟩] else [])
        ++ (match pd.deltaCollateral with
            | none => []
            | some v => if v < 0 then [⟨-v, TokenType.collateral⟩] else [])
        ++ (match pd.deltaBorrow with
            | none => []
            | some v => if 0 < v then [⟨v, TokenType.borrow⟩] else []),
       (match a with
        | none => []
        | some x => if x < 0 then [⟨-x, TokenType.shares⟩] else [])
        ++ (match pd.deltaCollateral with
            | none => []
            | some v => if 0 < v then [⟨v, TokenType.collateral⟩] else [])
        ++ (match pd.deltaBorrow with
            | none => []
            | some v => if v < 0 then [⟨-v, TokenType.borrow⟩] else [])) := by
  rcases pd with ⟨dc, db, ds⟩
  simp only [getReceiveAndProvide, addToList_noinvert, addToList_invert]
  rcases a with _ | x
  · simp
  · rcases lt_trichotomy x 0 with h | h | h
    · simp [h, show ¬x = 0 by omega, show ¬0 < x by omega]
    · subst h
      simp
    · simp [h, show ¬x = 0 by omega, show ¬x < 0 by omega]

end PicoUI
